import Mathlib

/-!
# Verification of the quest-dev device-session core

Shallow embedding of the quest-dev CLI's device-session logic
(`src/utils/adb.ts`, `src/commands/screenshot.ts`, `src/commands/open.ts`,
`src/commands/stay-awake.ts`).  External effects (adb invocations, the
file system, process signals) are modelled by explicit environments that
record the results the outside world returns, and each embedded operation
returns the trace of calls it issued together with its logs and outcome.
-/

namespace QuestDev

/-! ## JavaScript string primitives used by the source -/

/-- Scan implementing JavaScript `String.prototype.includes` on
character lists (substring containment). -/
def containsSub (pat : List Char) : List Char → Bool
  | [] => pat.isEmpty
  | c :: rest => pat.isPrefixOf (c :: rest) || containsSub pat rest

/-- JavaScript `s.includes(pat)`. -/
def jsIncludes (s pat : String) : Bool :=
  containsSub pat.data s.data

/-- Digit-run value accumulator for `parseInt`. -/
def digitsVal (ds : List Char) : Nat :=
  ds.foldl (fun a c => a * 10 + (c.toNat - '0'.toNat)) 0

/-- Whitespace trim on character lists (JavaScript `s.trim()`). -/
def trimList (cs : List Char) : List Char :=
  ((cs.dropWhile Char.isWhitespace).reverse.dropWhile Char.isWhitespace).reverse

/-- JavaScript `s.trim()`. -/
def jsTrim (s : String) : String :=
  ⟨trimList s.data⟩

/-- Split a character list at every occurrence of `c` (JavaScript
`s.split(c)` semantics: `n` separators yield `n + 1` fields). -/
def splitListOn (c : Char) : List Char → List Char → List (List Char)
  | [], acc => [acc.reverse]
  | x :: xs, acc =>
    if x = c then acc.reverse :: splitListOn c xs []
    else splitListOn c xs (x :: acc)

/-- JavaScript `s.split(sep)` for a one-character separator. -/
def jsSplitChar (c : Char) (s : String) : List String :=
  (splitListOn c s.data []).map fun cs => ⟨cs⟩

/-- JavaScript `s.startsWith(pat)`. -/
def jsStartsWith (s pat : String) : Bool :=
  pat.data.isPrefixOf s.data

/-- JavaScript `s.substring(n)`. -/
def jsDrop (n : Nat) (s : String) : String :=
  ⟨s.data.drop n⟩

/-- A JavaScript number restricted to the integer values this code
produces; `none` models `NaN`. -/
abbrev JsNum := Option Int

/-- JavaScript `parseInt(s, 10)`: skip surrounding whitespace, optional
sign, read the leading decimal-digit run; `NaN` (`none`) when no digit. -/
def jsParseInt (s : String) : JsNum :=
  let cs := trimList s.data
  match cs with
  | '-' :: rest =>
    let ds := rest.takeWhile Char.isDigit
    if ds.isEmpty then none else some (-(digitsVal ds : Int))
  | '+' :: rest =>
    let ds := rest.takeWhile Char.isDigit
    if ds.isEmpty then none else some (digitsVal ds : Int)
  | _ =>
    let ds := cs.takeWhile Char.isDigit
    if ds.isEmpty then none else some (digitsVal ds : Int)

/-- Template-literal rendering of a JavaScript number (`NaN` included). -/
def jsNumToString : JsNum → String
  | some v => toString v
  | none => "NaN"

/-- Split a character list on whitespace runs. -/
def splitWsList : List Char → List Char → List (List Char)
  | [], acc => [acc.reverse]
  | x :: xs, acc =>
    if x.isWhitespace then acc.reverse :: splitWsList xs []
    else splitWsList xs (x :: acc)

/-- JavaScript `s.split(/\s+/)` on an already trimmed string: split on
whitespace runs, no empty fields. -/
def jsSplitWs (s : String) : List String :=
  ((splitWsList s.data []).map fun cs => (⟨cs⟩ : String)).filter (· ≠ "")

/-- Result of `execCommandFull`: never throws, maps spawn errors to
`{code: 1, stderr: message}` (src/utils/exec.ts). -/
structure ExecResult where
  stdout : String
  stderr : String
  code : Int
deriving DecidableEq

/-- Terminal outcome of a command path: normal completion or
`process.exit(1)`. -/
inductive Outcome where
  | ok
  | fatalExit
deriving DecidableEq

/-! ## Screenshot capture verification (src/commands/screenshot.ts)

`isJpegComplete` spawns `adb exec-out tail -c 2 <remote>` and inspects the
collected stdout buffer.  The read is modelled by its observable result:
either the spawn itself errored (`proc.on('error')`), or the process
closed with an exit code (`null` when killed by a signal) and a byte
buffer. -/

/-- Observable result of the `tail -c 2` read in `isJpegComplete`. -/
inductive TailRead where
  | spawnError
  | done (code : Option Int) (bytes : List Nat)
deriving DecidableEq

/-- Number of bytes the tail read produced. -/
def TailRead.len : TailRead → Nat
  | .spawnError => 0
  | .done _ bytes => bytes.length

/-- Embedding of `isJpegComplete` (src/commands/screenshot.ts lines 54-79): false on
spawn error or nonzero/absent exit code, else requires at least two bytes
with `buffer[0] === 0xff && buffer[1] === 0xd9`. -/
def isJpegComplete : TailRead → Bool
  | .spawnError => false
  | .done code bytes =>
    if code ≠ some 0 then false
    else decide (2 ≤ bytes.length) && (bytes.getD 0 0 == 0xff) && (bytes.getD 1 0 == 0xd9)

/-! ## Port & socket resolver (src/utils/adb.ts lines 14-66)

`getBrowserPID` runs `adb shell "ps | grep <pkg>"` through
`execCommandFull` (which never rejects), so the surrounding `try` never
fires; the function is a pure scan over the captured stdout. -/

/-- Scan of the `ps` output lines in `getBrowserPID`: skip lines
containing `grep`, return `parseInt(parts[1], 10)` of the first line with
at least two whitespace-separated fields.  The outer `Option` is the
JavaScript `null` return; the inner `JsNum` keeps `parseInt`'s `NaN`. -/
def firstPidLine : List String → Option JsNum
  | [] => none
  | line :: rest =>
    if jsIncludes line "grep" then firstPidLine rest
    else
      let parts := jsSplitWs (jsTrim line)
      if 2 ≤ parts.length then some (jsParseInt (parts.getD 1 ""))
      else firstPidLine rest

/-- Embedding of `getBrowserPID` (src/utils/adb.ts lines 14-32). -/
def getBrowserPID (ps : ExecResult) : Option JsNum :=
  if ps.stdout = "" then none
  else firstPidLine (jsSplitChar '\n' (jsTrim ps.stdout))

/-- JavaScript truthiness of the `pid` value in `detectCDPSocket`:
`null`, `NaN` and `0` are falsy. -/
def truthyPid : Option JsNum → Option Int
  | some (some k) => if k = 0 then none else some k
  | _ => none

/-- Embedding of `detectCDPSocket` (src/utils/adb.ts lines 38-58): with a truthy PID,
return the PID-scoped socket name when the `/proc/net/unix` listing
contains it; otherwise the generic default.  Total by construction (the
underlying command wrappers never throw). -/
def detectCDPSocket (ps unixTab : ExecResult) : String :=
  match truthyPid (getBrowserPID ps) with
  | some k =>
    if jsIncludes unixTab.stdout ("chrome_devtools_remote_" ++ toString k)
    then "chrome_devtools_remote_" ++ toString k
    else "chrome_devtools_remote"
  | none => "chrome_devtools_remote"

/-- Embedding of `getCDPPortForSocket` (src/utils/adb.ts lines 64-66). -/
def getCDPPortForSocket (socket : String) : Nat :=
  if socket = "chrome_devtools_remote" then 9223 else 9222

/-- The connect-probe timeout `socket.setTimeout(500)` in
`isPortListening` (src/utils/adb.ts line 156), in milliseconds. -/
def isPortListeningTimeoutMs : Nat := 500

/-! ## Port forwarding manager (src/utils/adb.ts lines 175-224, 273-309)

`execCommand` rejects on nonzero exit, so its results are modelled as
`Except String String` (error message or stdout).  The trace records
every adb invocation the manager issues, in order. -/

/-- One adb invocation issued by the forwarding manager. -/
inductive AdbCall where
  | psGrep (pkg : String)
  | catUnix (pid : Int)
  | reverseListQ
  | reverseCreate (port : Nat)
  | forwardListQ
  | portProbe (port : Nat)
  | forwardCreate (port : Nat) (socket : String)
deriving DecidableEq

/-- Responses the outside world gives the forwarding manager. -/
structure FwdEnv where
  ps : ExecResult
  unixTab : ExecResult
  reverseListRes : Except String String
  reverseCreateRes : Except String String
  forwardListRes : Except String String
  portListening : Bool
  forwardCreateRes : Except String String

/-- Result of a forwarding-manager run: issued calls, `console.log`
lines, `console.error` lines, outcome. -/
structure FwdResult where
  calls : List AdbCall
  logs : List String
  errs : List String
  outcome : Outcome

/-- Calls issued by `detectCDPSocket` (the `ps | grep` lookup, plus the
`/proc/net/unix` read when a truthy PID was found). -/
def detectTrace (env : FwdEnv) (browser : String) : List AdbCall :=
  match truthyPid (getBrowserPID env.ps) with
  | some k => [.psGrep browser, .catUnix k]
  | none => [.psGrep browser]

def reverseAlreadyMsg (port : Nat) : String :=
  s!"ADB reverse port forwarding already set up: Quest:{port} -> Host:{port}"

def reverseSetupMsg (port : Nat) : String :=
  s!"ADB reverse port forwarding set up: Quest:{port} -> Host:{port}"

def cdpAlreadyMsg (cdpPort : Nat) : String :=
  s!"CDP port {cdpPort} forwarding already set up"

def forwardSetupMsg (cdpPort : Nat) (socket : String) : String :=
  s!"ADB forward port forwarding set up: Host:{cdpPort} -> Quest:{socket} (CDP)"

def portConflictMsg (cdpPort : Nat) : String :=
  s!"Error: Port {cdpPort} is already in use by another process"

/-- The `console.error` block printed on a host-port conflict
(src/utils/adb.ts lines 206-213). -/
def portConflictErrs (cdpPort : Nat) : List String :=
  [portConflictMsg cdpPort, "",
   s!"CDP port forwarding requires port {cdpPort} to be free.",
   "Please stop the process using this port and try again.", "",
   "To find what is using the port:",
   s!"  lsof -i :{cdpPort}", ""]

/-- The substring `adb reverse --list` is probed with:
`` `tcp:${port}` ``. -/
def tcpEntry (port : Nat) : String := "tcp:" ++ toString port

/-- The `forwardExists` test (src/utils/adb.ts line 198). -/
def forwardExists (fwdList : String) (cdpPort : Nat) (socket : String) : Bool :=
  jsIncludes fwdList (tcpEntry cdpPort) && jsIncludes fwdList socket

/-- Forward-rule phase shared by `ensurePortForwarding` (lines 195-219)
and `ensureCDPForwarding` (lines 281-304): consult `adb forward --list`;
if the rule exists report so, else probe the host port, hard-stop on a
conflict, and only then create the forward rule.  `tr`/`lg` carry the
calls and logs accumulated before this phase; `failMsg` is the message of
the surrounding `catch`. -/
def fwdPhase (socket : String) (cdpPort : Nat) (env : FwdEnv)
    (tr : List AdbCall) (lg : List String) (failMsg : String) : FwdResult :=
  match env.forwardListRes with
  | .error _ => ⟨tr ++ [.forwardListQ], lg, [failMsg], .fatalExit⟩
  | .ok fwdList =>
    let t := tr ++ [.forwardListQ]
    if forwardExists fwdList cdpPort socket then
      ⟨t, lg ++ [cdpAlreadyMsg cdpPort], [], .ok⟩
    else if env.portListening then
      ⟨t ++ [.portProbe cdpPort], lg, portConflictErrs cdpPort, .fatalExit⟩
    else
      match env.forwardCreateRes with
      | .error _ =>
        ⟨t ++ [.portProbe cdpPort, .forwardCreate cdpPort socket], lg, [failMsg], .fatalExit⟩
      | .ok _ =>
        ⟨t ++ [.portProbe cdpPort, .forwardCreate cdpPort socket],
         lg ++ [forwardSetupMsg cdpPort socket], [], .ok⟩

/-- Embedding of `ensurePortForwarding` (src/utils/adb.ts lines 175-224): detect the
CDP socket, idempotently ensure the reverse rule for `port`, then run the
forward-rule phase.  Any `execCommand` rejection lands in the `catch`,
which prints a failure message and exits. -/
def ensurePortForwarding (port : Nat) (browser : String) (env : FwdEnv) : FwdResult :=
  let socket := detectCDPSocket env.ps env.unixTab
  let cdpPort := getCDPPortForSocket socket
  let pre := detectTrace env browser
  match env.reverseListRes with
  | .error _ => ⟨pre ++ [.reverseListQ], [], ["Failed to set up port forwarding"], .fatalExit⟩
  | .ok revList =>
    let t1 := pre ++ [.reverseListQ]
    if jsIncludes revList (tcpEntry port) then
      fwdPhase socket cdpPort env t1 [reverseAlreadyMsg port] "Failed to set up port forwarding"
    else
      match env.reverseCreateRes with
      | .error _ =>
        ⟨t1 ++ [.reverseCreate port], [], ["Failed to set up port forwarding"], .fatalExit⟩
      | .ok _ =>
        fwdPhase socket cdpPort env (t1 ++ [.reverseCreate port])
          [reverseSetupMsg port] "Failed to set up port forwarding"

/-- Embedding of `ensureCDPForwarding` (src/utils/adb.ts lines 273-309): the
forward-rule phase alone. -/
def ensureCDPForwarding (browser : String) (env : FwdEnv) : FwdResult :=
  let socket := detectCDPSocket env.ps env.unixTab
  let cdpPort := getCDPPortForSocket socket
  fwdPhase socket cdpPort env (detectTrace env browser) [] "Failed to set up CDP forwarding"

/-- Reverse-creation calls (`adb reverse tcp:P tcp:P`). -/
def isReverseCreate : AdbCall → Bool
  | .reverseCreate _ => true
  | _ => false

/-- Forward-creation calls (`adb forward tcp:P localabstract:S`). -/
def isForwardCreate : AdbCall → Bool
  | .forwardCreate _ _ => true
  | _ => false

/-- Host-port connect probes. -/
def isPortProbe : AdbCall → Bool
  | .portProbe _ => true
  | _ => false

/-! ## Capture poll loop (src/commands/screenshot.ts lines 112-173)

The loop body at attempt `i` observes the `ls -t` listing result (the
most recent `.jpg` name, or `null`) and, when a new name appears, the
`isJpegComplete` verdict for it.  The environment records those
per-attempt observations plus the pull/delete results. -/

/-- Observable calls issued after the poll loop. -/
inductive ShotCall where
  | pull (filename : String)
  | deleteRemote (filename : String)
deriving DecidableEq

/-- Environment of one `screenshotCommand` run, after the trigger. -/
structure ShotEnv where
  existing : Option String
  listing : Nat → Option String
  complete : Nat → String → Bool
  pullOk : Bool
  deleteCode : Int

/-- What the loop body at attempt `i` concludes: `some f` when a new
nonempty name `f` differing from the pre-trigger snapshot was listed and
`isJpegComplete` verified it, else `none` (keep polling). -/
def attemptResult (env : ShotEnv) (i : Nat) : Option String :=
  match env.listing i with
  | none => none
  | some f =>
    if f ≠ "" ∧ some f ≠ env.existing then
      if env.complete i f then some f else none
    else none

/-- The bounded poll loop from attempt `i` with `fuel` attempts left
(`maxAttempts = 20` at the call site). -/
def pollFrom (env : ShotEnv) (i : Nat) : Nat → Option String
  | 0 => none
  | fuel + 1 =>
    match attemptResult env i with
    | some f => some f
    | none => pollFrom env (i + 1) fuel

/-- The `console.error` block printed when the poll loop times out
(src/commands/screenshot.ts lines 152-160). -/
def screenshotTimeoutErrs : List String :=
  ["Error: Screenshot was not created or is incomplete", "",
   "The screenshot service was triggered but no valid screenshot appeared.",
   "This can happen if:",
   "- The Quest is asleep or the screen is off",
   "- The Quest is showing a system dialog",
   "- The metacam service failed to capture (try rebooting Quest)",
   "- There is insufficient storage space", ""]

/-- Result of the capture tail: calls, logs, errors, outcome. -/
structure ShotResult where
  calls : List ShotCall
  logs : List String
  errs : List String
  outcome : Outcome

/-- Embedding of `screenshotCommand` from the poll loop on (src/commands/screenshot.ts
lines 131-173): poll up to 20 attempts; with no verified artifact exit
fatally with the diagnostic block and no pull; with one, pull it (fatal
on failure) and then best-effort delete it (warning on failure). -/
def screenshotPoll (env : ShotEnv) : ShotResult :=
  match pollFrom env 0 20 with
  | none => ⟨[], [], screenshotTimeoutErrs, .fatalExit⟩
  | some f =>
    if env.pullOk then
      if env.deleteCode ≠ 0 then
        ⟨[.pull f, .deleteRemote f], [s!"Screenshot ready: {f}"],
         [s!"Warning: Failed to delete screenshot from Quest: {f}"], .ok⟩
      else
        ⟨[.pull f, .deleteRemote f],
         [s!"Screenshot ready: {f}", s!"Deleted screenshot from Quest: {f}"], [], .ok⟩
    else
      ⟨[.pull f], [s!"Screenshot ready: {f}"], ["Failed to pull screenshot"], .fatalExit⟩

/-- Pull calls. -/
def isPull : ShotCall → Bool
  | .pull _ => true
  | _ => false

/-! ## Remote tab controller (src/commands/open.ts lines 20-91)

`tryNavigateExistingTab` is modelled from the point where the NDJSON tab
records have been parsed (the `tabs` array of line 34): an exact-URL pass
that reloads, then a blank-tab pass that navigates, then `false`.  The
environment gives the exit codes of the `cdp-cli go` invocations. -/

/-- A parsed tab record. -/
structure Tab where
  id : String
  url : String
  title : String
deriving DecidableEq

/-- One `cdp-cli` invocation. -/
inductive CdpCall where
  | tabsQuery
  | reload (id : String)
  | navigate (id : String) (url : String)
deriving DecidableEq

/-- Exit codes of the `cdp-cli go` calls. -/
structure CdpEnv where
  reloadCode : String → Int
  navCode : String → String → Int

/-- The blank-tab sentinel set (src/commands/open.ts lines 65-70). -/
def isBlankUrl (u : String) : Bool :=
  u == "about:blank" || u == "chrome://newtab/" ||
  u == "chrome://panel-app-nav/ntp" || u == ""

/-- The blank-tab pass (src/commands/open.ts lines 64-86): find a blank
tab, navigate it to the target, succeed iff the command exits zero. -/
def blankPass (tabs : List Tab) (targetUrl : String) (env : CdpEnv)
    (tr : List CdpCall) : List CdpCall × Bool :=
  match tabs.find? (fun t => isBlankUrl t.url) with
  | some t =>
    if env.navCode t.id targetUrl = 0 then (tr ++ [.navigate t.id targetUrl], true)
    else (tr ++ [.navigate t.id targetUrl], false)
  | none => (tr, false)

/-- Embedding of `tryNavigateExistingTab` from the parsed tab list on
(src/commands/open.ts lines 47-90): reload an exact-URL match; if none,
or if the reload exits nonzero, fall through to the blank-tab pass. -/
def tryNavigateExistingTab (tabs : List Tab) (targetUrl : String)
    (env : CdpEnv) : List CdpCall × Bool :=
  match tabs.find? (fun t => t.url == targetUrl) with
  | some t =>
    if env.reloadCode t.id = 0 then ([.tabsQuery, .reload t.id], true)
    else blankPass tabs targetUrl env [.tabsQuery, .reload t.id]
  | none => blankPass tabs targetUrl env [.tabsQuery]

/-- Reload calls. -/
def isReloadCall : CdpCall → Bool
  | .reload _ => true
  | _ => false

/-- Navigate calls. -/
def isNavigateCall : CdpCall → Bool
  | .navigate _ _ => true
  | _ => false

/-! ## Forwarding-mode selection (src/commands/open.ts lines 96-133)

A successfully parsed WHATWG URL is modelled by its normalized fields:
`hostname`, the explicit `port` (absent when the URL carries the
protocol default, since `URL` elides it), and the `protocol` with its
trailing colon. -/

/-- Normalized fields of a parsed URL. -/
structure URLRec where
  hostname : String
  port : Option Nat
  protocol : String
deriving DecidableEq

/-- The loopback test (src/commands/open.ts line 107). -/
def isLoopbackUrl (u : URLRec) : Bool :=
  u.hostname == "localhost" || u.hostname == "127.0.0.1"

/-- The reverse port derived for a loopback URL (src/commands/open.ts
lines 110-118): the explicit URL port, else 443 for `https:` and 80
otherwise. -/
def derivedPort (u : URLRec) : Nat :=
  match u.port with
  | some p => p
  | none => if u.protocol == "https:" then 443 else 80

/-- The forwarding-setup step of `openCommand` (src/commands/open.ts
lines 106-133): loopback URLs get `ensurePortForwarding` on the derived
port (reverse and forward rules), all other URLs only
`ensureCDPForwarding`. -/
def openForwardingSetup (u : URLRec) (env : FwdEnv) : FwdResult :=
  if isLoopbackUrl u then
    ensurePortForwarding (derivedPort u) "com.oculus.browser" env
  else
    ensureCDPForwarding "com.oculus.browser" env

/-! ## Stay-awake session start (src/commands/stay-awake.ts lines 110-182)

`stayAwakeCommand` after the device check: PID-file mutual exclusion,
reading the original screen timeout, writing the new PID file, spawning
the watchdog, waking the screen, disabling the proximity sensor, and
setting the 24-hour timeout. -/

/-- Observable actions of the stay-awake start-up sequence. -/
inductive StayCall where
  | readPidFile
  | livenessCheck (pid : Int)
  | unlinkStale
  | getTimeoutQ
  | writePid (pid : Int)
  | spawnWatchdog
  | wakeScreenCall
  | proxDisable
  | setTimeoutCall (ms : Nat)
deriving DecidableEq

/-- Outcome of the start-up sequence. -/
inductive StayOutcome where
  | alreadyRunning
  | fatal
  | crashed
  | running (originalTimeout : JsNum)
deriving DecidableEq

/-- Environment of `stayAwakeCommand` after the device check. -/
structure StayEnv where
  selfPid : Int
  pidFile : Option String
  alive : Int → Bool
  unlinkFails : Bool
  getTimeoutCmd : Except String String
  writeOk : Bool
  spawnOk : Bool
  wakeOk : Bool
  proxOk : Bool
  setOk : Bool

/-- Partial result of the start-up sequence. -/
structure StayResult where
  calls : List StayCall
  logs : List String
  errs : List String
  outcome : StayOutcome

/-- Steps after the PID-file check (src/commands/stay-awake.ts lines
126-182): read the original timeout (fatal on failure), attempt the PID
write (warn on failure), spawn the detached watchdog (warn on failure),
wake the screen and disable the proximity sensor in one try (error log,
not fatal), then set the 24-hour timeout (fatal on failure). -/
def stayAwakeAfterPidCheck (env : StayEnv) (tr : List StayCall) : StayResult :=
  match env.getTimeoutCmd with
  | .error _ => ⟨tr ++ [.getTimeoutQ], [], ["Failed to get current screen timeout"], .fatal⟩
  | .ok out =>
    let orig := jsParseInt (jsTrim out)
    let t1 := tr ++ [.getTimeoutQ, .writePid env.selfPid]
    let w1 : List String := if env.writeOk then [] else ["Failed to write PID file, hook will not work"]
    let t2 := t1 ++ [.spawnWatchdog]
    let w2 : List String :=
      if env.spawnOk then w1 else w1 ++ ["Failed to spawn watchdog child process"]
    let t3 := if env.wakeOk then t2 ++ [.wakeScreenCall, .proxDisable] else t2 ++ [.wakeScreenCall]
    let w3 : List String :=
      if env.wakeOk ∧ env.proxOk then w2
      else w2 ++ ["Failed to wake screen or disable proximity sensor"]
    let t4 := t3 ++ [.setTimeoutCall 86400000]
    if env.setOk then
      ⟨t4, ["Screen timeout set to 24 hours"], w3, .running orig⟩
    else
      ⟨t4, [], w3 ++ ["Failed to set screen timeout"], .fatal⟩

/-- Embedding of `stayAwakeCommand` from the PID-file check on (src/commands/
stay-awake.ts lines 110-182): an existing PID file with a live recorded
process is a fatal "already running"; a dead (or unparseable) recorded
PID deletes the stale file and proceeds. -/
def stayAwakeStart (env : StayEnv) : StayResult :=
  match env.pidFile with
  | some content =>
    match jsParseInt content with
    | some p =>
      if env.alive p then
        ⟨[.readPidFile, .livenessCheck p], [],
         [s!"Error: stay-awake is already running (PID: {p})"], .alreadyRunning⟩
      else if env.unlinkFails then
        ⟨[.readPidFile, .livenessCheck p], [], [], .crashed⟩
      else
        stayAwakeAfterPidCheck env [.readPidFile, .livenessCheck p, .unlinkStale]
    | none =>
      if env.unlinkFails then ⟨[.readPidFile], [], [], .crashed⟩
      else stayAwakeAfterPidCheck env [.readPidFile, .unlinkStale]
  | none => stayAwakeAfterPidCheck env []

/-! ## Cleanup single-execution latch (src/commands/stay-awake.ts lines
184-241)

The `cleanup` closure is shared by the SIGINT/SIGTERM/SIGHUP handlers and
the idle-timer expiry.  Its state is the captured `cleanupInProgress`
flag plus the effects performed so far. -/

/-- Effects performed by `cleanup`. -/
inductive CleanupCall where
  | clearIdleTimer
  | killChild
  | unlinkPidFile
  | restoreTimeout
  | restoreProx
deriving DecidableEq

/-- Captured state of the `cleanup` closure. -/
structure CleanupState where
  inProgress : Bool
  calls : List CleanupCall
  exited : Bool
deriving DecidableEq

/-- One invocation of `cleanup` (src/commands/stay-awake.ts lines
197-227): return immediately when the guard flag is set, else set it and
run the full restoration sequence, then `process.exit(0)`. -/
def cleanupStep (s : CleanupState) : CleanupState :=
  if s.inProgress then s
  else
    ⟨true,
     s.calls ++ [.clearIdleTimer, .killChild, .unlinkPidFile, .restoreTimeout, .restoreProx],
     true⟩

/-- The events that invoke `cleanup` (src/commands/stay-awake.ts lines
190-192, 230-232). -/
inductive CleanupTrigger where
  | sigint
  | sigterm
  | sighup
  | idleTimeout
deriving DecidableEq

/-- Every trigger runs the same `cleanup` closure. -/
def fireTrigger (_t : CleanupTrigger) (s : CleanupState) : CleanupState :=
  cleanupStep s

/-- Fire a sequence of triggers in order. -/
def runTriggers (ts : List CleanupTrigger) (s : CleanupState) : CleanupState :=
  ts.foldl (fun s t => fireTrigger t s) s

/-- Settings-restoration executions in a call list. -/
def restoreCount (cs : List CleanupCall) : Nat :=
  cs.countP fun c => c == CleanupCall.restoreTimeout

/-! ## Battery status (src/utils/adb.ts lines 352-393) -/

/-- Parsed `dumpsys battery` fields carried through the line fold. -/
structure BatteryFields where
  level : JsNum
  acPowered : Bool
  usbPowered : Bool
  maxChargingCurrent : JsNum
deriving DecidableEq

/-- JavaScript `>` against a literal: false when the left side is
`NaN`. -/
def jsGt (n : JsNum) (k : Int) : Bool :=
  match n with
  | some v => decide (k < v)
  | none => false

/-- One line of the `dumpsys battery` parse loop (src/utils/adb.ts lines
366-377). -/
def batteryLineStep (st : BatteryFields) (line : String) : BatteryFields :=
  let t := jsTrim line
  if jsStartsWith t "level: " then { st with level := jsParseInt (jsDrop 7 t) }
  else if jsStartsWith t "AC powered: " then { st with acPowered := jsDrop 12 t == "true" }
  else if jsStartsWith t "USB powered: " then { st with usbPowered := jsDrop 13 t == "true" }
  else if jsStartsWith t "Max charging current: " then
    { st with maxChargingCurrent := jsParseInt (jsDrop 22 t) }
  else st

/-- Fold of the parse loop over the dumpsys output. -/
def batteryFields (stdout : String) : BatteryFields :=
  (jsSplitChar '\n' stdout).foldl batteryLineStep ⟨some 0, false, false, some 0⟩

/-- The charging-state classification (src/utils/adb.ts lines 380-390). -/
def batteryState (st : BatteryFields) : String :=
  if st.acPowered || st.usbPowered then
    if jsGt st.maxChargingCurrent 2000000 then "fast charging" else "charging"
  else "not charging"

/-- Embedding of `getBatteryStatus` (src/utils/adb.ts lines 352-393): throws on a
nonzero exit of `dumpsys battery`, else renders `` `${level}% ${state}` ``. -/
def getBatteryStatus (r : ExecResult) : Except String String :=
  if r.code ≠ 0 then .error "Failed to get battery status"
  else
    let st := batteryFields r.stdout
    .ok (jsNumToString st.level ++ "% " ++ batteryState st)

/-! ## Theorems -/

/-- C1: Capture verification: for every candidate file, `isJpegComplete`
reports the file VERIFIED if and only if the two bytes read from the
file's tail equal `0xFF 0xD9`; any other trailing byte pair, any tail
read shorter than 2 bytes, and any read failing with nonzero exit are not
verified, regardless of the file's length. -/
theorem capture_verification_iff (t : TailRead) (hlen : t.len ≤ 2) :
    isJpegComplete t = true ↔ t = TailRead.done (some 0) [0xff, 0xd9] := by
  cases t with
  | spawnError => simp [isJpegComplete]
  | done code bytes =>
    by_cases hc : code = some 0
    · subst hc
      rcases bytes with _ | ⟨a, _ | ⟨b, _ | ⟨c, rest⟩⟩⟩
      · simp [isJpegComplete]
      · simp [isJpegComplete]
      · simp only [isJpegComplete, TailRead.done.injEq, true_and]
        simp [List.getD]
      · exfalso
        simp [TailRead.len] at hlen
    · simp [isJpegComplete, hc]

theorem capture_verification_iff_witness :
    (TailRead.done (some 0) [0xff, 0xd9]).len ≤ 2 ∧
      (isJpegComplete (TailRead.done (some 0) [0xff, 0xd9]) = true ↔
        TailRead.done (some 0) [0xff, 0xd9] = TailRead.done (some 0) [0xff, 0xd9]) :=
  ⟨by decide, capture_verification_iff (TailRead.done (some 0) [0xff, 0xd9]) (by decide)⟩

/-- C4: Tab reuse: with tabs `[{id:"1",url:"http://x/"},{id:"2",url:"about:blank"}]`
and target `"http://x/"`, the controller issues a reload for tab id `"1"`
and no navigate call; with target `"http://y/"` and the same tabs, it
issues a navigate for tab id `"2"` to `"http://y/"` and no reload. -/
theorem tab_reuse_concrete :
    (CdpCall.reload "1" ∈
        (tryNavigateExistingTab [⟨"1", "http://x/", "t1"⟩, ⟨"2", "about:blank", "t2"⟩]
          "http://x/" ⟨fun _ => 0, fun _ _ => 0⟩).1 ∧
      ((tryNavigateExistingTab [⟨"1", "http://x/", "t1"⟩, ⟨"2", "about:blank", "t2"⟩]
          "http://x/" ⟨fun _ => 0, fun _ _ => 0⟩).1).countP isNavigateCall = 0) ∧
    (CdpCall.navigate "2" "http://y/" ∈
        (tryNavigateExistingTab [⟨"1", "http://x/", "t1"⟩, ⟨"2", "about:blank", "t2"⟩]
          "http://y/" ⟨fun _ => 0, fun _ _ => 0⟩).1 ∧
      ((tryNavigateExistingTab [⟨"1", "http://x/", "t1"⟩, ⟨"2", "about:blank", "t2"⟩]
          "http://y/" ⟨fun _ => 0, fun _ _ => 0⟩).1).countP isReloadCall = 0) := by
  decide

/-- C5: Socket resolution: whenever the process lookup yields no truthy
PID, or the PID-scoped socket name is absent from the device socket
table, `detectCDPSocket` returns the generic default
`chrome_devtools_remote`, which `getCDPPortForSocket` pairs with port
9223; the resolution path is a total function (it never raises). -/
theorem socket_resolution_fallback (ps unixTab : ExecResult)
    (h : truthyPid (getBrowserPID ps) = none ∨
         ∀ k, truthyPid (getBrowserPID ps) = some k →
           jsIncludes unixTab.stdout ("chrome_devtools_remote_" ++ toString k) = false) :
    detectCDPSocket ps unixTab = "chrome_devtools_remote" ∧
      getCDPPortForSocket (detectCDPSocket ps unixTab) = 9223 := by
  have hsock : detectCDPSocket ps unixTab = "chrome_devtools_remote" := by
    rcases htp : truthyPid (getBrowserPID ps) with _ | k
    · simp [detectCDPSocket, htp]
    · rcases h with h | h
      · rw [htp] at h
        exact absurd h (by simp)
      · simp [detectCDPSocket, htp, h k htp]
  refine ⟨hsock, ?_⟩
  rw [hsock]
  rfl

theorem socket_resolution_fallback_witness :
    detectCDPSocket ⟨"", "", 1⟩ ⟨"xyz", "", 0⟩ = "chrome_devtools_remote" ∧
      getCDPPortForSocket (detectCDPSocket ⟨"", "", 1⟩ ⟨"xyz", "", 0⟩) = 9223 :=
  socket_resolution_fallback ⟨"", "", 1⟩ ⟨"xyz", "", 0⟩ (Or.inl (by decide))

/-- The bounded poll loop returns nothing exactly when no attempt in its
window yields a verified artifact. -/
theorem pollFrom_eq_none_iff (env : ShotEnv) (i fuel : Nat) :
    pollFrom env i fuel = none ↔ ∀ j < fuel, attemptResult env (i + j) = none := by
  induction fuel generalizing i with
  | zero => simp [pollFrom]
  | succ n ih =>
    cases har : attemptResult env i with
    | some f =>
      simp only [pollFrom, har]
      constructor
      · intro h
        exact absurd h (by simp)
      · intro h
        have h0 := h 0 (Nat.succ_pos n)
        rw [Nat.add_zero] at h0
        rw [har] at h0
        exact absurd h0 (by simp)
    | none =>
      simp only [pollFrom, har, ih (i + 1)]
      constructor
      · intro h j hj
        cases j with
        | zero => simpa using har
        | succ m =>
          have hm := h m (by omega)
          have hidx : i + 1 + m = i + (m + 1) := by omega
          rwa [hidx] at hm
      · intro h j hj
        have hm := h (j + 1) (by omega)
        have hidx : i + (j + 1) = i + 1 + j := by omega
        rwa [hidx] at hm

/-- C3: Capture polling: when no attempt of the 20-round poll loop finds
a new verified artifact, the command reports the fatal timeout diagnostic
and performs no pull of any file; conversely a pull call is only ever
issued after some attempt found a verified artifact. -/
theorem capture_timeout_no_pull (env : ShotEnv) :
    ((∀ i < 20, attemptResult env i = none) →
        (screenshotPoll env).outcome = .fatalExit ∧
        "Error: Screenshot was not created or is incomplete" ∈ (screenshotPoll env).errs ∧
        ∀ f, ShotCall.pull f ∉ (screenshotPoll env).calls) ∧
    ((∃ f, ShotCall.pull f ∈ (screenshotPoll env).calls) →
        ∃ i < 20, (attemptResult env i).isSome = true) := by
  constructor
  · intro h
    have hp : pollFrom env 0 20 = none := by
      rw [pollFrom_eq_none_iff]
      intro j hj
      simpa using h j hj
    simp [screenshotPoll, hp, screenshotTimeoutErrs]
  · rintro ⟨f, hf⟩
    by_contra hno
    push_neg at hno
    have hall : ∀ j < 20, attemptResult env (0 + j) = none := by
      intro j hj
      have := hno j hj
      rw [Nat.zero_add]
      exact Option.not_isSome_iff_eq_none.mp (by simp [this])
    have hp : pollFrom env 0 20 = none := (pollFrom_eq_none_iff env 0 20).mpr hall
    rw [screenshotPoll] at hf
    rw [hp] at hf
    simp at hf

theorem capture_timeout_no_pull_witness :
    (screenshotPoll ⟨none, fun _ => none, fun _ _ => false, true, 0⟩).outcome = .fatalExit ∧
      "Error: Screenshot was not created or is incomplete" ∈
        (screenshotPoll ⟨none, fun _ => none, fun _ _ => false, true, 0⟩).errs ∧
      ∀ f, ShotCall.pull f ∉
        (screenshotPoll ⟨none, fun _ => none, fun _ _ => false, true, 0⟩).calls :=
  (capture_timeout_no_pull ⟨none, fun _ => none, fun _ _ => false, true, 0⟩).1
    (fun _ _ => rfl)

/-- A `cleanup` invocation on a latched state is a no-op. -/
theorem cleanupStep_latched (s : CleanupState) (h : s.inProgress = true) :
    cleanupStep s = s := by
  simp [cleanupStep, h]

/-- After any `cleanup` invocation the latch is set. -/
theorem cleanupStep_sets_latch (s : CleanupState) :
    (cleanupStep s).inProgress = true := by
  by_cases h : s.inProgress
  · simp [cleanupStep, h]
  · simp [cleanupStep, h]

/-- Triggers fired on a latched state change nothing. -/
theorem runTriggers_latched (ts : List CleanupTrigger) (s : CleanupState)
    (h : s.inProgress = true) : runTriggers ts s = s := by
  induction ts with
  | nil => rfl
  | cons t rest ih =>
    show runTriggers rest (fireTrigger t s) = s
    rw [fireTrigger, cleanupStep_latched s h]
    exact ih

/-- C9: Cleanup single-execution latch: within one stay-awake parent
process, any nonempty sequence of triggers (SIGINT, SIGTERM, SIGHUP,
idle-timeout expiry, in any order or combination) has the same effect as
a single `cleanup` call, the settings-restoration sequence runs at most
once, and every invocation on an already-latched state returns the state
unchanged. -/
theorem cleanup_single_execution (ts : List CleanupTrigger) (s : CleanupState)
    (hflag : s.inProgress = false) (hcount : restoreCount s.calls = 0) :
    restoreCount (runTriggers ts s).calls ≤ 1 ∧
      (ts ≠ [] → runTriggers ts s = cleanupStep s) ∧
      (∀ s2 : CleanupState, s2.inProgress = true → cleanupStep s2 = s2) := by
  have hsingle : ∀ t rest, runTriggers (t :: rest) s = cleanupStep s := by
    intro t rest
    show runTriggers rest (fireTrigger t s) = cleanupStep s
    rw [fireTrigger]
    exact runTriggers_latched rest _ (cleanupStep_sets_latch s)
  refine ⟨?_, ?_, cleanupStep_latched⟩
  · cases ts with
    | nil =>
      show restoreCount s.calls ≤ 1
      omega
    | cons t rest =>
      rw [hsingle t rest]
      rw [cleanupStep]
      simp only [hflag, Bool.false_eq_true, if_false]
      unfold restoreCount at hcount ⊢
      rw [List.countP_append, hcount]
      decide
  · intro hne
    cases ts with
    | nil => exact absurd rfl hne
    | cons t rest => exact hsingle t rest

theorem cleanup_single_execution_witness :
    restoreCount (runTriggers [CleanupTrigger.sigint, CleanupTrigger.sigterm,
        CleanupTrigger.idleTimeout] ⟨false, [], false⟩).calls ≤ 1 ∧
      ([CleanupTrigger.sigint, CleanupTrigger.sigterm, CleanupTrigger.idleTimeout] ≠
          ([] : List CleanupTrigger) →
        runTriggers [CleanupTrigger.sigint, CleanupTrigger.sigterm,
          CleanupTrigger.idleTimeout] ⟨false, [], false⟩ = cleanupStep ⟨false, [], false⟩) ∧
      (∀ s2 : CleanupState, s2.inProgress = true → cleanupStep s2 = s2) :=
  cleanup_single_execution
    [CleanupTrigger.sigint, CleanupTrigger.sigterm, CleanupTrigger.idleTimeout]
    ⟨false, [], false⟩ rfl rfl

/-- C6: Watchdog mutual exclusion: when the stay-awake PID file exists
and its recorded PID is a live process, start-up fails with the "already
running" error and no settings change (no timeout write, no proximity
broadcast, no wake) is issued; when the recorded PID is dead, the stale
file is deleted and the session proceeds, writing the new process's PID
to the file. -/
theorem stay_awake_mutual_exclusion (env : StayEnv) (content : String) (p : Int)
    (hfile : env.pidFile = some content)
    (hp : jsParseInt content = some p) :
    (env.alive p = true →
        (stayAwakeStart env).outcome = .alreadyRunning ∧
        (s!"Error: stay-awake is already running (PID: {p})") ∈ (stayAwakeStart env).errs ∧
        (∀ ms, StayCall.setTimeoutCall ms ∉ (stayAwakeStart env).calls) ∧
        StayCall.proxDisable ∉ (stayAwakeStart env).calls ∧
        StayCall.wakeScreenCall ∉ (stayAwakeStart env).calls) ∧
    (env.alive p = false → env.unlinkFails = false →
        ∀ out, env.getTimeoutCmd = .ok out → env.setOk = true →
        StayCall.unlinkStale ∈ (stayAwakeStart env).calls ∧
        StayCall.writePid env.selfPid ∈ (stayAwakeStart env).calls ∧
        (stayAwakeStart env).outcome = .running (jsParseInt (jsTrim out))) := by
  constructor
  · intro halive
    simp [stayAwakeStart, hfile, hp, halive]
  · intro hdead hunlink out hout hset
    have hrun : stayAwakeStart env =
        stayAwakeAfterPidCheck env [.readPidFile, .livenessCheck p, .unlinkStale] := by
      simp [stayAwakeStart, hfile, hp, hdead, hunlink]
    rw [hrun]
    rw [stayAwakeAfterPidCheck, hout]
    simp only [hset, if_true]
    by_cases hw : env.wakeOk <;> simp [hw]

theorem stay_awake_mutual_exclusion_witness :
    (stayAwakeStart
        ⟨100, some "42", fun _ => true, false, .ok "5000", true, true, true, true, true⟩).outcome
        = .alreadyRunning ∧
      StayCall.unlinkStale ∈
        (stayAwakeStart
          ⟨100, some "42", fun _ => false, false, .ok "5000", true, true, true, true, true⟩).calls ∧
      StayCall.writePid 100 ∈
        (stayAwakeStart
          ⟨100, some "42", fun _ => false, false, .ok "5000", true, true, true, true, true⟩).calls := by
  refine ⟨?_, ?_, ?_⟩
  · exact ((stay_awake_mutual_exclusion
      ⟨100, some "42", fun _ => true, false, .ok "5000", true, true, true, true, true⟩
      "42" 42 rfl (by decide)).1 rfl).1
  · exact ((stay_awake_mutual_exclusion
      ⟨100, some "42", fun _ => false, false, .ok "5000", true, true, true, true, true⟩
      "42" 42 rfl (by decide)).2 rfl rfl "5000" rfl rfl).1
  · exact ((stay_awake_mutual_exclusion
      ⟨100, some "42", fun _ => false, false, .ok "5000", true, true, true, true, true⟩
      "42" 42 rfl (by decide)).2 rfl rfl "5000" rfl rfl).2.1

/-! ### Forwarding-manager trace lemmas -/

theorem detectTrace_countP_rev (env : FwdEnv) (b : String) :
    (detectTrace env b).countP isReverseCreate = 0 := by
  rw [detectTrace]
  cases truthyPid (getBrowserPID env.ps) <;>
    simp [List.countP_cons, isReverseCreate]

theorem detectTrace_countP_fwd (env : FwdEnv) (b : String) :
    (detectTrace env b).countP isForwardCreate = 0 := by
  rw [detectTrace]
  cases truthyPid (getBrowserPID env.ps) <;>
    simp [List.countP_cons, isForwardCreate]

theorem detectTrace_countP_probe (env : FwdEnv) (b : String) :
    (detectTrace env b).countP isPortProbe = 0 := by
  rw [detectTrace]
  cases truthyPid (getBrowserPID env.ps) <;>
    simp [List.countP_cons, isPortProbe]

/-- The forward phase never issues reverse-creation calls. -/
theorem fwdPhase_countP_rev (socket : String) (cp : Nat) (env : FwdEnv)
    (tr : List AdbCall) (lg : List String) (fm : String) :
    (fwdPhase socket cp env tr lg fm).calls.countP isReverseCreate =
      tr.countP isReverseCreate := by
  rw [fwdPhase]
  rcases env.forwardListRes with e | F
  · simp [List.countP_append, List.countP_cons, isReverseCreate]
  · by_cases hex : forwardExists F cp socket
    · simp [hex, List.countP_append, List.countP_cons, isReverseCreate]
    · by_cases hl : env.portListening
      · simp [hex, hl, List.countP_append, List.countP_cons, isReverseCreate]
      · rcases env.forwardCreateRes with e | s <;>
          simp [hex, hl, List.countP_append, List.countP_cons, isReverseCreate]

/-- The forward phase keeps every earlier log line. -/
theorem fwdPhase_logs_mono (socket : String) (cp : Nat) (env : FwdEnv)
    (tr : List AdbCall) (lg : List String) (fm : String) (x : String)
    (hx : x ∈ lg) : x ∈ (fwdPhase socket cp env tr lg fm).logs := by
  rw [fwdPhase]
  rcases env.forwardListRes with e | F
  · exact hx
  · by_cases hex : forwardExists F cp socket
    · simp [hex]
      exact Or.inl hx
    · by_cases hl : env.portListening
      · simp [hex, hl]
        exact hx
      · rcases env.forwardCreateRes with e | s <;> simp [hex, hl]
        · exact hx
        · exact Or.inl hx

theorem fwdPhase_already (socket : String) (cp : Nat) (env : FwdEnv)
    (tr : List AdbCall) (lg : List String) (fm : String) (F : String)
    (h : env.forwardListRes = .ok F) (hex : forwardExists F cp socket = true) :
    fwdPhase socket cp env tr lg fm =
      ⟨tr ++ [.forwardListQ], lg ++ [cdpAlreadyMsg cp], [], .ok⟩ := by
  rw [fwdPhase, h]
  simp [hex]

theorem fwdPhase_conflict (socket : String) (cp : Nat) (env : FwdEnv)
    (tr : List AdbCall) (lg : List String) (fm : String) (F : String)
    (h : env.forwardListRes = .ok F) (hex : forwardExists F cp socket = false)
    (hl : env.portListening = true) :
    fwdPhase socket cp env tr lg fm =
      ⟨(tr ++ [.forwardListQ]) ++ [.portProbe cp], lg, portConflictErrs cp, .fatalExit⟩ := by
  rw [fwdPhase, h]
  simp [hex, hl]

theorem fwdPhase_creates (socket : String) (cp : Nat) (env : FwdEnv)
    (tr : List AdbCall) (lg : List String) (fm : String) (F s : String)
    (h : env.forwardListRes = .ok F) (hex : forwardExists F cp socket = false)
    (hl : env.portListening = false) (hc : env.forwardCreateRes = .ok s) :
    fwdPhase socket cp env tr lg fm =
      ⟨(tr ++ [.forwardListQ]) ++ [.portProbe cp, .forwardCreate cp socket],
       lg ++ [forwardSetupMsg cp socket], [], .ok⟩ := by
  rw [fwdPhase, h, hc]
  simp [hex, hl]

theorem ensurePortForwarding_already (port : Nat) (b : String) (env : FwdEnv)
    (L : String) (hrev : env.reverseListRes = .ok L)
    (hin : jsIncludes L (tcpEntry port) = true) :
    ensurePortForwarding port b env =
      fwdPhase (detectCDPSocket env.ps env.unixTab)
        (getCDPPortForSocket (detectCDPSocket env.ps env.unixTab)) env
        (detectTrace env b ++ [.reverseListQ]) [reverseAlreadyMsg port]
        "Failed to set up port forwarding" := by
  rw [ensurePortForwarding, hrev]
  simp [hin]

theorem ensurePortForwarding_createFail (port : Nat) (b : String) (env : FwdEnv)
    (L e : String) (hrev : env.reverseListRes = .ok L)
    (hin : jsIncludes L (tcpEntry port) = false)
    (hc : env.reverseCreateRes = .error e) :
    ensurePortForwarding port b env =
      ⟨(detectTrace env b ++ [.reverseListQ]) ++ [.reverseCreate port], [],
       ["Failed to set up port forwarding"], .fatalExit⟩ := by
  rw [ensurePortForwarding, hrev, hc]
  simp [hin]

theorem ensurePortForwarding_creates (port : Nat) (b : String) (env : FwdEnv)
    (L s : String) (hrev : env.reverseListRes = .ok L)
    (hin : jsIncludes L (tcpEntry port) = false)
    (hc : env.reverseCreateRes = .ok s) :
    ensurePortForwarding port b env =
      fwdPhase (detectCDPSocket env.ps env.unixTab)
        (getCDPPortForSocket (detectCDPSocket env.ps env.unixTab)) env
        ((detectTrace env b ++ [.reverseListQ]) ++ [.reverseCreate port])
        [reverseSetupMsg port] "Failed to set up port forwarding" := by
  rw [ensurePortForwarding, hrev, hc]
  simp [hin]

/-- C2: Reverse forwarding idempotence: when the live `adb reverse --list`
output already contains the `tcp:<port>` entry, `ensurePortForwarding`
issues zero reverse-creation calls and logs "already set up"; when it
does not, exactly one reverse-creation call (`adb reverse tcp:P tcp:P`)
is issued; and a second invocation against a listing that now contains
the entry issues none. -/
theorem reverse_forwarding_idempotent (port : Nat) (b : String)
    (env env2 : FwdEnv) (L L2 : String)
    (h : env.reverseListRes = .ok L) (h2 : env2.reverseListRes = .ok L2)
    (hIn2 : jsIncludes L2 (tcpEntry port) = true) :
    ((jsIncludes L (tcpEntry port) = true →
        (ensurePortForwarding port b env).calls.countP isReverseCreate = 0 ∧
        reverseAlreadyMsg port ∈ (ensurePortForwarding port b env).logs) ∧
      (jsIncludes L (tcpEntry port) = false →
        (ensurePortForwarding port b env).calls.countP isReverseCreate = 1)) ∧
    (ensurePortForwarding port b env2).calls.countP isReverseCreate = 0 := by
  have main : ∀ (e : FwdEnv) (M : String), e.reverseListRes = .ok M →
      jsIncludes M (tcpEntry port) = true →
      (ensurePortForwarding port b e).calls.countP isReverseCreate = 0 ∧
      reverseAlreadyMsg port ∈ (ensurePortForwarding port b e).logs := by
    intro e M hM hin
    rw [ensurePortForwarding_already port b e M hM hin]
    constructor
    · rw [fwdPhase_countP_rev]
      rw [List.countP_append, detectTrace_countP_rev]
      simp [List.countP_cons, isReverseCreate]
    · exact fwdPhase_logs_mono _ _ _ _ _ _ _ (by simp)
  refine ⟨⟨fun hin => main env L h hin, fun hout => ?_⟩, (main env2 L2 h2 hIn2).1⟩
  rcases hc : env.reverseCreateRes with e | s
  · rw [ensurePortForwarding_createFail port b env L e h hout hc]
    simp only []
    rw [List.countP_append, List.countP_append, detectTrace_countP_rev]
    simp [List.countP_cons, isReverseCreate]
  · rw [ensurePortForwarding_creates port b env L s h hout hc]
    rw [fwdPhase_countP_rev]
    rw [List.countP_append, List.countP_append, detectTrace_countP_rev]
    simp [List.countP_cons, isReverseCreate]

theorem reverse_forwarding_idempotent_witness :
    ((jsIncludes "host-1 tcp:8080 tcp:8080" (tcpEntry 8080) = true →
        (ensurePortForwarding 8080 "com.oculus.browser"
          ⟨⟨"", "", 1⟩, ⟨"", "", 0⟩, .ok "host-1 tcp:8080 tcp:8080", .ok "", .ok "", false, .ok ""⟩).calls.countP
            isReverseCreate = 0 ∧
        reverseAlreadyMsg 8080 ∈
          (ensurePortForwarding 8080 "com.oculus.browser"
            ⟨⟨"", "", 1⟩, ⟨"", "", 0⟩, .ok "host-1 tcp:8080 tcp:8080", .ok "", .ok "", false, .ok ""⟩).logs) ∧
      (jsIncludes "host-1 tcp:8080 tcp:8080" (tcpEntry 8080) = false →
        (ensurePortForwarding 8080 "com.oculus.browser"
          ⟨⟨"", "", 1⟩, ⟨"", "", 0⟩, .ok "host-1 tcp:8080 tcp:8080", .ok "", .ok "", false, .ok ""⟩).calls.countP
            isReverseCreate = 1)) ∧
    (ensurePortForwarding 8080 "com.oculus.browser"
      ⟨⟨"", "", 1⟩, ⟨"", "", 0⟩, .ok "host-1 tcp:8080 tcp:8080", .ok "", .ok "", false, .ok ""⟩).calls.countP
        isReverseCreate = 0 :=
  reverse_forwarding_idempotent 8080 "com.oculus.browser"
    ⟨⟨"", "", 1⟩, ⟨"", "", 0⟩, .ok "host-1 tcp:8080 tcp:8080", .ok "", .ok "", false, .ok ""⟩
    ⟨⟨"", "", 1⟩, ⟨"", "", 0⟩, .ok "host-1 tcp:8080 tcp:8080", .ok "", .ok "", false, .ok ""⟩
    "host-1 tcp:8080 tcp:8080" "host-1 tcp:8080 tcp:8080" rfl rfl (by decide)

/-- C8: Port conflict hard stop: with the reverse rule already in place,
when the forward rule is absent from the live `adb forward --list` output
and the host-port probe (whose connect timeout, 500 ms, is at most one
second) finds the CDP port occupied, `ensurePortForwarding` exits fatally
with an error naming the port and suggesting `lsof`, issuing no
forward-creation call; when the forward rule already exists, no probe is
made, no conflict error is printed, and the run succeeds. -/
theorem port_conflict_hard_stop (port : Nat) (b : String) (env : FwdEnv)
    (L F : String)
    (hrev : env.reverseListRes = .ok L)
    (hin : jsIncludes L (tcpEntry port) = true)
    (hfwd : env.forwardListRes = .ok F) :
    (forwardExists F (getCDPPortForSocket (detectCDPSocket env.ps env.unixTab))
          (detectCDPSocket env.ps env.unixTab) = false →
        env.portListening = true →
        (ensurePortForwarding port b env).outcome = .fatalExit ∧
        portConflictMsg (getCDPPortForSocket (detectCDPSocket env.ps env.unixTab)) ∈
          (ensurePortForwarding port b env).errs ∧
        (s!"  lsof -i :{getCDPPortForSocket (detectCDPSocket env.ps env.unixTab)}") ∈
          (ensurePortForwarding port b env).errs ∧
        (ensurePortForwarding port b env).calls.countP isForwardCreate = 0) ∧
      (forwardExists F (getCDPPortForSocket (detectCDPSocket env.ps env.unixTab))
          (detectCDPSocket env.ps env.unixTab) = true →
        (ensurePortForwarding port b env).calls.countP isPortProbe = 0 ∧
        portConflictMsg (getCDPPortForSocket (detectCDPSocket env.ps env.unixTab)) ∉
          (ensurePortForwarding port b env).errs ∧
        (ensurePortForwarding port b env).outcome = .ok) ∧
      isPortListeningTimeoutMs ≤ 1000 := by
  rw [ensurePortForwarding_already port b env L hrev hin]
  refine ⟨?_, ?_, by decide⟩
  · intro hex hl
    rw [fwdPhase_conflict _ _ env _ _ _ F hfwd hex hl]
    refine ⟨rfl, ?_, ?_, ?_⟩
    · simp [portConflictErrs]
    · simp [portConflictErrs]
    · simp [List.countP_append, List.countP_cons, isForwardCreate,
        detectTrace_countP_fwd]
  · intro hex
    rw [fwdPhase_already _ _ env _ _ _ F hfwd hex]
    refine ⟨?_, ?_, rfl⟩
    · simp [List.countP_append, List.countP_cons, isPortProbe,
        detectTrace_countP_probe]
    · simp

theorem port_conflict_hard_stop_witness :
    ((ensurePortForwarding 8080 "com.oculus.browser"
        ⟨⟨"", "", 1⟩, ⟨"", "", 0⟩, .ok "host-1 tcp:8080 tcp:8080", .ok "", .ok "", true, .ok ""⟩).outcome
        = .fatalExit) ∧
      portConflictMsg 9223 ∈
        (ensurePortForwarding 8080 "com.oculus.browser"
          ⟨⟨"", "", 1⟩, ⟨"", "", 0⟩, .ok "host-1 tcp:8080 tcp:8080", .ok "", .ok "", true, .ok ""⟩).errs ∧
      (ensurePortForwarding 8080 "com.oculus.browser"
        ⟨⟨"", "", 1⟩, ⟨"", "", 0⟩, .ok "host-1 tcp:8080 tcp:8080", .ok "", .ok "", true, .ok ""⟩).calls.countP
          isForwardCreate = 0 := by
  have h := (port_conflict_hard_stop 8080 "com.oculus.browser"
    ⟨⟨"", "", 1⟩, ⟨"", "", 0⟩, .ok "host-1 tcp:8080 tcp:8080", .ok "", .ok "", true, .ok ""⟩
    "host-1 tcp:8080 tcp:8080" "" rfl (by decide) rfl).1 (by decide) rfl
  exact ⟨h.1, h.2.1, h.2.2.2⟩

/-- C7: Forwarding mode selection: in a fresh forwarding state (no
matching entries, free host port, succeeding creations), a loopback
target URL makes `openCommand` establish both the reverse rule — on the
URL's explicit port when present, else the protocol default (443 for
`https:`, 80 otherwise) — and the forward (CDP) rule; a non-loopback URL
establishes only the forward (CDP) rule and no reverse rule. -/
theorem forwarding_mode_selection (u : URLRec) (env : FwdEnv) (L F s1 s2 : String)
    (hrev : env.reverseListRes = .ok L)
    (hcr : env.reverseCreateRes = .ok s1)
    (hfwd : env.forwardListRes = .ok F)
    (hnl : env.portListening = false)
    (hcf : env.forwardCreateRes = .ok s2)
    (habsent : jsIncludes L
      (tcpEntry (u.port.getD (if u.protocol == "https:" then 443 else 80))) = false)
    (hfabsent : forwardExists F
      (getCDPPortForSocket (detectCDPSocket env.ps env.unixTab))
      (detectCDPSocket env.ps env.unixTab) = false) :
    (isLoopbackUrl u = true →
        AdbCall.reverseCreate (u.port.getD (if u.protocol == "https:" then 443 else 80)) ∈
          (openForwardingSetup u env).calls ∧
        (openForwardingSetup u env).calls.countP isReverseCreate = 1 ∧
        AdbCall.forwardCreate (getCDPPortForSocket (detectCDPSocket env.ps env.unixTab))
          (detectCDPSocket env.ps env.unixTab) ∈ (openForwardingSetup u env).calls ∧
        (openForwardingSetup u env).calls.countP isForwardCreate = 1) ∧
      (isLoopbackUrl u = false →
        (openForwardingSetup u env).calls.countP isReverseCreate = 0 ∧
        AdbCall.forwardCreate (getCDPPortForSocket (detectCDPSocket env.ps env.unixTab))
          (detectCDPSocket env.ps env.unixTab) ∈ (openForwardingSetup u env).calls ∧
        (openForwardingSetup u env).calls.countP isForwardCreate = 1) := by
  have hdp : derivedPort u = u.port.getD (if u.protocol == "https:" then 443 else 80) := by
    rw [derivedPort]
    cases u.port <;> rfl
  constructor
  · intro hloop
    have hopen : openForwardingSetup u env =
        ensurePortForwarding (derivedPort u) "com.oculus.browser" env := by
      rw [openForwardingSetup, hloop]
      simp
    rw [hopen, hdp]
    rw [ensurePortForwarding_creates _ _ env L s1 hrev habsent hcr]
    rw [fwdPhase_creates _ _ env _ _ _ F s2 hfwd hfabsent hnl hcf]
    refine ⟨by simp, ?_, by simp, ?_⟩
    · simp [List.countP_append, List.countP_cons, isReverseCreate,
        detectTrace_countP_rev]
    · simp [List.countP_append, List.countP_cons, isForwardCreate,
        detectTrace_countP_fwd]
  · intro hloop
    have hopen : openForwardingSetup u env =
        ensureCDPForwarding "com.oculus.browser" env := by
      rw [openForwardingSetup, hloop]
      simp
    rw [hopen, ensureCDPForwarding]
    rw [fwdPhase_creates _ _ env _ _ _ F s2 hfwd hfabsent hnl hcf]
    refine ⟨?_, by simp, ?_⟩
    · simp [List.countP_append, List.countP_cons, isReverseCreate,
        detectTrace_countP_rev]
    · simp [List.countP_append, List.countP_cons, isForwardCreate,
        detectTrace_countP_fwd]

theorem forwarding_mode_selection_witness :
    AdbCall.reverseCreate 3000 ∈
        (openForwardingSetup ⟨"localhost", some 3000, "http:"⟩
          ⟨⟨"", "", 1⟩, ⟨"", "", 0⟩, .ok "", .ok "", .ok "", false, .ok ""⟩).calls ∧
      AdbCall.forwardCreate 9223 "chrome_devtools_remote" ∈
        (openForwardingSetup ⟨"localhost", some 3000, "http:"⟩
          ⟨⟨"", "", 1⟩, ⟨"", "", 0⟩, .ok "", .ok "", .ok "", false, .ok ""⟩).calls ∧
      (openForwardingSetup ⟨"example.com", none, "https:"⟩
        ⟨⟨"", "", 1⟩, ⟨"", "", 0⟩, .ok "", .ok "", .ok "", false, .ok ""⟩).calls.countP
          isReverseCreate = 0 := by
  have h1 := (forwarding_mode_selection ⟨"localhost", some 3000, "http:"⟩
    ⟨⟨"", "", 1⟩, ⟨"", "", 0⟩, .ok "", .ok "", .ok "", false, .ok ""⟩
    "" "" "" "" rfl rfl rfl rfl rfl (by decide) (by decide)).1 (by decide)
  have h2 := (forwarding_mode_selection ⟨"example.com", none, "https:"⟩
    ⟨⟨"", "", 1⟩, ⟨"", "", 0⟩, .ok "", .ok "", .ok "", false, .ok ""⟩
    "" "" "" "" rfl rfl rfl rfl rfl (by decide) (by decide)).2 (by decide)
  exact ⟨h1.1, h1.2.2.1, h2.1⟩

/-! ### Battery-status lemmas -/

theorem jsGt_iff (n : JsNum) (k : Int) :
    jsGt n k = true ↔ ∃ v, n = some v ∧ k < v := by
  cases n <;> simp [jsGt]

theorem batteryState_fast_iff (st : BatteryFields) :
    batteryState st = "fast charging" ↔
      ((st.acPowered = true ∨ st.usbPowered = true) ∧
        jsGt st.maxChargingCurrent 2000000 = true) := by
  rcases st with ⟨level, ac, usb, cur⟩
  cases ac <;> cases usb <;>
    by_cases hg : jsGt cur 2000000 = true <;>
      simp [batteryState, hg]

theorem batteryState_charging_iff (st : BatteryFields) :
    batteryState st = "charging" ↔
      ((st.acPowered = true ∨ st.usbPowered = true) ∧
        jsGt st.maxChargingCurrent 2000000 = false) := by
  rcases st with ⟨level, ac, usb, cur⟩
  cases ac <;> cases usb <;>
    by_cases hg : jsGt cur 2000000 = true <;>
      simp [batteryState, hg]

theorem batteryState_not_charging_iff (st : BatteryFields) :
    batteryState st = "not charging" ↔
      (st.acPowered = false ∧ st.usbPowered = false) := by
  rcases st with ⟨level, ac, usb, cur⟩
  cases ac <;> cases usb <;>
    by_cases hg : jsGt cur 2000000 = true <;>
      simp [batteryState, hg]

theorem batteryLineStep_level_of_not_level (st : BatteryFields) (line : String)
    (h : jsStartsWith (jsTrim line) "level: " = false) :
    (batteryLineStep st line).level = st.level := by
  simp only [batteryLineStep, h, Bool.false_eq_true, if_false]
  split_ifs <;> rfl

theorem batteryFold_level (lines : List String) (st : BatteryFields)
    (h : ∀ line ∈ lines, jsStartsWith (jsTrim line) "level: " = false) :
    (lines.foldl batteryLineStep st).level = st.level := by
  induction lines generalizing st with
  | nil => rfl
  | cons l rest ih =>
    rw [List.foldl_cons]
    rw [ih _ (fun x hx => h x (List.mem_cons_of_mem _ hx))]
    exact batteryLineStep_level_of_not_level st l (h l (List.mem_cons_self _ _))

/-- C10 (amended): with a zero dumpsys exit, `getBatteryStatus` renders
`<level>% <state>`, where the state is `fast charging` exactly when the
device is AC- or USB-powered with max charging current strictly above
2,000,000 microamps, `charging` exactly when powered at or below that
threshold (a `NaN` current included), and `not charging` exactly when
unpowered; a missing `level:` line leaves the level at 0.  (A present but
unparseable `level:` value renders as `NaN`, not 0 — see the
counterexample.) -/
theorem battery_status_classification (r : ExecResult) (h : r.code = 0) :
    getBatteryStatus r =
      .ok (jsNumToString (batteryFields r.stdout).level ++ "% " ++
        batteryState (batteryFields r.stdout)) ∧
      (batteryState (batteryFields r.stdout) = "fast charging" ↔
        (((batteryFields r.stdout).acPowered = true ∨
            (batteryFields r.stdout).usbPowered = true) ∧
          ∃ v, (batteryFields r.stdout).maxChargingCurrent = some v ∧ 2000000 < v)) ∧
      (batteryState (batteryFields r.stdout) = "charging" ↔
        (((batteryFields r.stdout).acPowered = true ∨
            (batteryFields r.stdout).usbPowered = true) ∧
          ¬∃ v, (batteryFields r.stdout).maxChargingCurrent = some v ∧ 2000000 < v)) ∧
      (batteryState (batteryFields r.stdout) = "not charging" ↔
        ((batteryFields r.stdout).acPowered = false ∧
          (batteryFields r.stdout).usbPowered = false)) ∧
      ((∀ line ∈ jsSplitChar '\n' r.stdout,
          jsStartsWith (jsTrim line) "level: " = false) →
        (batteryFields r.stdout).level = some 0) := by
  refine ⟨?_, ?_, ?_, batteryState_not_charging_iff _, ?_⟩
  · rw [getBatteryStatus]
    simp [h]
  · rw [batteryState_fast_iff, jsGt_iff]
  · rw [batteryState_charging_iff]
    constructor
    · rintro ⟨hp, hg⟩
      refine ⟨hp, ?_⟩
      rw [← jsGt_iff, hg]
      simp
    · rintro ⟨hp, hg⟩
      refine ⟨hp, ?_⟩
      rw [← jsGt_iff] at hg
      simpa using hg
  · intro hl
    exact batteryFold_level _ _ hl

theorem battery_status_classification_witness :
    getBatteryStatus
        ⟨"level: 80\nAC powered: true\nMax charging current: 2500000", "", 0⟩ =
      .ok "80% fast charging" :=
  (battery_status_classification
      ⟨"level: 80\nAC powered: true\nMax charging current: 2500000", "", 0⟩
      rfl).1.trans (by rfl)

/-- C10 counterexample: a present but unparseable `level:` line does not
yield level 0 — the rendered level is the string `NaN`. -/
theorem battery_unparseable_level_not_zero :
    getBatteryStatus ⟨"level: abc", "", 0⟩ = .ok "NaN% not charging" ∧
      getBatteryStatus ⟨"level: abc", "", 0⟩ ≠ .ok "0% not charging" := by
  have h1 : getBatteryStatus ⟨"level: abc", "", 0⟩ = .ok "NaN% not charging" := rfl
  refine ⟨h1, ?_⟩
  intro hcontra
  rw [h1] at hcontra
  exact absurd (Except.ok.inj hcontra) (by decide)

end QuestDev
